import Mathlib

/-!
Verification of the persona streaming engine of `pipecat/services/ojin/video.py`
against its natural-language specification.

The Python source is shallowly embedded: pure helpers become Lean functions on
`Int`/`Rat`, the mutable object state of `OjinPersonaService` / `OjinPersonaFSM`
/ `OjinPersonaInteraction` becomes an explicit record that the embedded
operations transform, and observable side effects (messages sent to the server,
frames pushed up/downstream) are recorded in ghost log fields of that record.
Python `%` (which raises `ZeroDivisionError` on a zero divisor and otherwise
takes the sign of the divisor, i.e. floor-mod) is embedded as an `Option`-valued
floor-mod.
-/

/-- Python `a % b`: `none` models the `ZeroDivisionError` raised when `b = 0`;
otherwise Python's `%` is floor-mod (result has the sign of the divisor),
which is exactly `Int.fmod`. -/
def pymod (a b : Int) : Option Int :=
  if b = 0 then none else some (Int.fmod a b)

/-- Python `xs[i]` on a list: non-negative indices index from the front,
negative indices wrap once from the back, anything else raises `IndexError`
(modelled as `none`). -/
def pylist_get {α : Type} (xs : List α) (i : Int) : Option α :=
  if 0 ≤ i then xs.get? i.toNat
  else if 0 ≤ i + xs.length then xs.get? (i + xs.length).toNat
  else none

/-- Embedding of `mirror_index(index, size)` (video.py lines 1409-1435):
`period = (size - 1) * 2`; `normalized_idx = index % period` (so `size = 1`
makes the `%` raise, modelled by `none`); return `normalized_idx` when it is
`< size`, else `period - normalized_idx - 1`. -/
def mirror_index (index size : Int) : Option Int :=
  let period := (size - 1) * 2
  match pymod index period with
  | none => none
  | some normalized_idx =>
    if normalized_idx < size then some normalized_idx
    else some (period - normalized_idx - 1)

/-- Modelled from the spec's words only (for comparison with the code's
`mirror_index`): "the period is 2N and the returned physical index is k for
k < N, else 2N - 1 - k for k >= N, where k = logical_index mod 2N". -/
def mirror_index_specform (index size : Int) : Option Int :=
  match pymod index (2 * size) with
  | none => none
  | some k =>
    if k < size then some k
    else some (2 * size - 1 - k)

-- Helper: closed form of `mirror_index` for a non-negative index and at least
-- two frames, phrased with `Int.emod`.
theorem mirror_index_closed_form (i N : Int) (hi : 0 ≤ i) (hN : 2 ≤ N) :
    mirror_index i N =
      some (if i % ((N - 1) * 2) < N then i % ((N - 1) * 2)
            else (N - 1) * 2 - i % ((N - 1) * 2) - 1) := by
  have hP : (0 : Int) < (N - 1) * 2 := by nlinarith
  have hPne : (N - 1) * 2 ≠ 0 := ne_of_gt hP
  unfold mirror_index pymod
  simp only [hPne, if_false]
  rw [Int.fmod_eq_emod i (le_of_lt hP)]
  split <;> simp

-- Helper: with at least two frames and a non-negative index the result is a
-- valid physical index, i.e. lies in [0, N-1].
theorem mirror_index_bounds (i N : Int) (hi : 0 ≤ i) (hN : 2 ≤ N) :
    ∃ r, mirror_index i N = some r ∧ 0 ≤ r ∧ r ≤ N - 1 := by
  have hP : (0 : Int) < (N - 1) * 2 := by nlinarith
  have h0 : 0 ≤ i % ((N - 1) * 2) := Int.emod_nonneg i (ne_of_gt hP)
  have h1 : i % ((N - 1) * 2) < (N - 1) * 2 := Int.emod_lt_of_pos i hP
  rw [mirror_index_closed_form i N hi hN]
  by_cases hlt : i % ((N - 1) * 2) < N
  · exact ⟨_, by rw [if_pos hlt], h0, by omega⟩
  · exact ⟨_, by rw [if_neg hlt], by omega, by omega⟩

-- Helper: the mirror sequence repeats with period (N-1)*2.
theorem mirror_index_periodic (i N : Int) (hi : 0 ≤ i) (hN : 2 ≤ N) :
    mirror_index (i + (N - 1) * 2) N = mirror_index i N := by
  have hP : (0 : Int) < (N - 1) * 2 := by nlinarith
  have hi' : 0 ≤ i + (N - 1) * 2 := by omega
  rw [mirror_index_closed_form i N hi hN,
    mirror_index_closed_form (i + (N - 1) * 2) N hi' hN,
    show i + (N - 1) * 2 = i + (N - 1) * 2 * 1 by ring,
    Int.add_mul_emod_self_left]

/-- C1, counterexample. The claim says the ping-pong mirror has period `2N`
with physical index `2N - 1 - k` in the second half; the code uses period
`(N - 1) * 2`. At `N = 5`, `i = 5` the code returns physical index 2 while
the claimed formula gives 4. -/
theorem c1_counterexample :
    mirror_index 5 5 = some 2 ∧ mirror_index_specform 5 5 = some 4 ∧
      mirror_index 5 5 ≠ mirror_index_specform 5 5 := by
  refine ⟨by decide, by decide, by decide⟩

/-- C1, amended. For the idle loop of `N ≥ 2` cached frames the ping-pong
mirror has period `2(N - 1)`, not `2N`: for every non-negative logical index
`i`, letting `k = i mod (2(N-1))`, `mirror_index i N` returns the physical
index `k` when `k < N` and `2(N-1) - 1 - k` when `k ≥ N`; consequently the
sequence of physical indices repeats with period `2(N - 1)`. -/
theorem c1_amended_mirror_formula (i N : Int) (hi : 0 ≤ i) (hN : 2 ≤ N) :
    (mirror_index i N =
      some (if i % ((N - 1) * 2) < N then i % ((N - 1) * 2)
            else (N - 1) * 2 - 1 - i % ((N - 1) * 2))) ∧
      mirror_index (i + (N - 1) * 2) N = mirror_index i N := by
  constructor
  · rw [mirror_index_closed_form i N hi hN]
    split <;> [rfl; (congr 1; ring)]
  · exact mirror_index_periodic i N hi hN

/-- C1 witness: the amended formula evaluated at `i = 5`, `N = 5`. -/
theorem c1_amended_mirror_formula_witness :
    (mirror_index 5 5 =
      some (if (5 : Int) % ((5 - 1) * 2) < 5 then (5 : Int) % ((5 - 1) * 2)
            else (5 - 1) * 2 - 1 - (5 : Int) % ((5 - 1) * 2))) ∧
      mirror_index (5 + (5 - 1) * 2) 5 = mirror_index 5 5 :=
  c1_amended_mirror_formula 5 5 (by decide) (by decide)

/-- C8, counterexample. The claimed reflection identity
`mirror(mirror_period - 1 - k, N) = mirror(k, N)` fails at `N = 5`, `k = 3`,
whether the mirror period is read as the code's `(N-1)*2 = 8`
(`mirror 4 5 = 4 ≠ 3 = mirror 3 5`) or as the spec's `2N = 10`
(`mirror 6 5 = 1 ≠ 3`); hence the sequence is not palindromic either. -/
theorem c8_counterexample :
    mirror_index ((5 - 1) * 2 - 1 - 3) 5 ≠ mirror_index 3 5 ∧
      mirror_index (2 * 5 - 1 - 3) 5 ≠ mirror_index 3 5 := by
  refine ⟨by decide, by decide⟩

/-- C8, amended. With the code's mirror period `P = 2(N - 1)`, the reflection
identity `mirror_index (P - 1 - k) N = mirror_index k N` holds only on the
restricted range `0 ≤ k ≤ N - 3` (it fails at `k = N - 2` and `k = N - 1`),
and the sequence of physical indices repeats with period `P` (not `2N`). -/
theorem c8_amended_mirror_reflection (N k : Int) (hN : 2 ≤ N) (hk : 0 ≤ k)
    (hk3 : k ≤ N - 3) :
    mirror_index ((N - 1) * 2 - 1 - k) N = mirror_index k N ∧
      (∀ i : Int, 0 ≤ i → mirror_index (i + (N - 1) * 2) N = mirror_index i N) := by
  constructor
  · have h1 : 0 ≤ (N - 1) * 2 - 1 - k := by omega
    rw [mirror_index_closed_form _ N h1 hN, mirror_index_closed_form k N hk hN]
    have e1 : ((N - 1) * 2 - 1 - k) % ((N - 1) * 2) = (N - 1) * 2 - 1 - k :=
      Int.emod_eq_of_lt h1 (by omega)
    have e2 : k % ((N - 1) * 2) = k := Int.emod_eq_of_lt hk (by omega)
    rw [e1, e2, if_neg (by omega), if_pos (by omega)]
    congr 1
    omega
  · exact fun i hi => mirror_index_periodic i N hi hN

/-- C8 witness: the amended reflection identity at `N = 5`, `k = 1`. -/
theorem c8_amended_mirror_reflection_witness :
    mirror_index ((5 - 1) * 2 - 1 - 1) 5 = mirror_index 1 5 ∧
      (∀ i : Int, 0 ≤ i → mirror_index (i + (5 - 1) * 2) 5 = mirror_index i 5) :=
  c8_amended_mirror_reflection 5 1 (by decide) (by decide) (by decide)

/-- C10. For every non-negative index and every size `N ≥ 2`,
`mirror_index` returns a value `r` with `0 ≤ r ≤ N - 1`, a valid physical
index into the frame list; for `N = 1` the computed period is `0`, so the
Python `%` raises (`none`) instead of returning an index. -/
theorem c10_mirror_index_safety (i N : Int) (hi : 0 ≤ i) (hN : 2 ≤ N) :
    (∃ r, mirror_index i N = some r ∧ 0 ≤ r ∧ r ≤ N - 1) ∧
      (∀ j : Int, mirror_index j 1 = none) := by
  refine ⟨mirror_index_bounds i N hi hN, fun j => ?_⟩
  unfold mirror_index pymod
  norm_num

/-- C10 witness: evaluation at `i = 7`, `N = 4`. -/
theorem c10_mirror_index_safety_witness :
    (∃ r, mirror_index 7 4 = some r ∧ 0 ≤ r ∧ r ≤ 4 - 1) ∧
      (∀ j : Int, mirror_index j 1 = none) :=
  c10_mirror_index_safety 7 4 (by decide) (by decide)

/-!
## Data model of the service

`PersonaState`, `InteractionState` and the relevant message/frame records are
embedded directly from the source; observable side effects are recorded in
ghost fields (`events`, `sent_messages`, `transition_log`, `last_closed`).
-/

/-- Embedding of `PersonaState` (video.py lines 105-113). -/
inductive PersonaState
  | INVALID
  | INITIALIZING
  | IDLE
  | WAITING_INTERACTION_READY
  | IDLE_TO_SPEECH
  | SPEECH
deriving DecidableEq, Repr

/-- Embedding of `InteractionState` (video.py lines 53-63). -/
inductive InteractionState
  | INACTIVE
  | STARTING
  | WAITING_READY
  | ACTIVE
  | ALL_AUDIO_PROCESSED
deriving DecidableEq, Repr

/-- A value stored in the `params` dict of an outbound `InteractionInput`
message. The floats appearing there are the exact constants of the source, so
they are embedded as rationals. -/
inductive PValue
  | pInt (n : Int)
  | pOptInt (n : Option Int)
  | pRat (q : Rat)
deriving DecidableEq, Repr

/-- An `OutputImageRawFrame` produced from a server `InteractionResponse`
(the speech frames queued in `OjinPersonaFSM._speech_frames`): its `pts` and
image payload. -/
structure SpeechFrame where
  pts : Int
  image : List Nat
deriving DecidableEq, Repr

/-- Embedding of `OjinPersonaInteractionInputMessage` as used by the service:
the fields it sets. `params = none` models the message before its `params`
dict is assigned. -/
structure InputMsg where
  interaction_id : Option String
  audio_int16_bytes : List Nat
  is_last_input : Bool
  params : Option (List (String × PValue))
deriving DecidableEq, Repr

/-- Embedding of `AnimationKeyframe` (video.py lines 1260-1276).
`mirror_frame_idx` is `Option`-valued because `mirror_index` can raise. -/
structure AnimationKeyframe where
  mirror_frame_idx : Option Int
  frame_idx : Int
  image : List Nat
deriving DecidableEq, Repr

/-- Embedding of the fields of `OjinPersonaInteraction` (video.py lines
455-525) used by the claims. The two `asyncio.Queue`s become lists; times
(`time.perf_counter()` values) become rationals. -/
structure Interaction where
  interaction_id : Option String
  persona_id : String
  audio_input_queue : List InputMsg
  audio_output_queue : List (List Nat)
  pending_first_input : Bool
  start_frame_idx : Option Int
  frame_idx : Int
  filter_amount : Rat
  num_loop_frames : Int
  state : InteractionState
  ending_extra_time : Rat
  ending_timestamp : Rat
  mouth_opening_scale : Rat
  received_all_interaction_inputs : Bool
  active_keyframes_slot : Int
  keyframe_slot_to_update : Int
deriving DecidableEq, Repr

/-- The dataclass defaults of `OjinPersonaInteraction` (after
`__post_init__`, which creates the two empty queues). -/
def default_interaction (persona_id : String) : Interaction where
  interaction_id := some ""
  persona_id := persona_id
  audio_input_queue := []
  audio_output_queue := []
  pending_first_input := true
  start_frame_idx := none
  frame_idx := 0
  filter_amount := 0
  num_loop_frames := 0
  state := InteractionState.INACTIVE
  ending_extra_time := 1
  ending_timestamp := 0
  mouth_opening_scale := 0
  received_all_interaction_inputs := false
  active_keyframes_slot := 0
  keyframe_slot_to_update := -1

/-- Embedding of `OjinPersonaSettings` (video.py lines 66-93). Note: there is
no `extra_frames_lat` field in the source settings. -/
structure OjinPersonaSettings where
  api_key : String
  ws_url : String
  client_connect_max_retries : Nat
  client_reconnect_delay : Rat
  persona_config_id : String
  image_size : Int × Int
  cache_idle_sequence : Bool
  idle_sequence_duration : Int
  idle_to_speech_seconds : Rat
  tts_audio_passthrough : Bool
  push_bot_stopped_speaking_frames : Bool
deriving DecidableEq, Repr

/-- The field defaults of `OjinPersonaSettings`. -/
def default_settings : OjinPersonaSettings where
  api_key := ""
  ws_url := "wss://models.ojin.ai/realtime"
  client_connect_max_retries := 3
  client_reconnect_delay := 3
  persona_config_id := ""
  image_size := (1920, 1080)
  cache_idle_sequence := false
  idle_sequence_duration := 30
  idle_to_speech_seconds := 3 / 4
  tts_audio_passthrough := false
  push_bot_stopped_speaking_frames := true

/-- Module-level constants of video.py (lines 447-453). -/
def OJIN_PERSONA_SAMPLE_RATE : Nat := 16000

/-- `SPEECH_FILTER_AMOUNT = 1000.0`. -/
def SPEECH_FILTER_AMOUNT : Rat := 1000

/-- `IDLE_FILTER_AMOUNT = 1000.0`. -/
def IDLE_FILTER_AMOUNT : Rat := 1000

/-- `IDLE_MOUTH_OPENING_SCALE = 0.0`. -/
def IDLE_MOUTH_OPENING_SCALE : Rat := 0

/-- `SPEECH_MOUTH_OPENING_SCALE = 1.0`. -/
def SPEECH_MOUTH_OPENING_SCALE : Rat := 1

/-- `IDLE_ANIMATION_KEYFRAMES_SLOT = 0`. -/
def IDLE_ANIMATION_KEYFRAMES_SLOT : Int := 0

/-- Observable side effects of the service, recorded as ghost events:
the `CancelInteraction` message, `EndFrame`s, `OjinPersonaInitializedFrame`s,
`BotStoppedSpeakingFrame`, and task starts/stops. -/
inductive SEvent
  | sentCancel
  | endUpstream
  | endDownstream
  | initializedDownstream
  | initializedUpstream
  | botStoppedSpeaking
  | startedPlayback
deriving DecidableEq, Repr

/-- Combined state of `OjinPersonaService`, its `OjinPersonaFSM` and the
`PersonaPlaybackLoop` (the FSM and playback loop are owned 1:1 by the
service, and the FSM's state-changed callback is the service's handler, so
the three objects are embedded as one record). Ghost fields: `last_closed`
records the interaction object as left by `close()` just before the service
drops its reference; `transition_log` records the `old -> new` pairs of
genuine FSM transitions; `events` and `sent_messages` record outbound
effects; `next_interaction_id` models the id that
`client.start_interaction()` would hand out. -/
structure ServiceState where
  fsm_state : PersonaState
  speech_frames : List SpeechFrame
  prev_speech_frame : Option SpeechFrame
  current_frame_idx : Int
  num_frames_missed : Int
  waiting_for_image_frames : Bool
  transition_time : Rat
  playback_time : Rat
  idle_frames : List AnimationKeyframe
  interaction : Option Interaction
  pending_interaction : Option Interaction
  settings : OjinPersonaSettings
  audio_output_running : Bool
  last_closed : Option Interaction
  transition_log : List (PersonaState × PersonaState)
  events : List SEvent
  sent_messages : List InputMsg
  next_interaction_id : String
deriving DecidableEq, Repr

/-!
## Embedded operations
-/

/-- Python `int(q)` for the sample-count computation: truncation toward zero. -/
def pyint (q : Rat) : Int :=
  if 0 ≤ q then q.floor else -((-q).floor)

/-- The `params` dict attached to every outbound audio `InteractionInput`
message, exactly as built at video.py lines 584-590
(`_generate_and_send_silence`) and 1223-1229 (`_process_queued_audio`): the
keys are `start_frame_idx`, `filter_amount`, `mouth_opening_scale`,
`active_keyframe_slot_index` and `to_update_keyframe_slot_index`, each taken
from the current interaction. -/
def interaction_params (i : Interaction) : List (String × PValue) :=
  [("start_frame_idx", PValue.pOptInt i.start_frame_idx),
   ("filter_amount", PValue.pRat i.filter_amount),
   ("mouth_opening_scale", PValue.pRat i.mouth_opening_scale),
   ("active_keyframe_slot_index", PValue.pInt i.active_keyframes_slot),
   ("to_update_keyframe_slot_index", PValue.pInt i.keyframe_slot_to_update)]

/-- Embedding of `OjinPersonaInteraction.close` (video.py lines 495-508):
drain both queues, set the state to `INACTIVE`, reset
`received_all_interaction_inputs`. -/
def interaction_close (i : Interaction) : Interaction :=
  { i with audio_input_queue := []
           audio_output_queue := []
           state := InteractionState.INACTIVE
           received_all_interaction_inputs := false }

/-- Embedding of `OjinPersonaInteraction.set_state` (video.py lines 510-525):
a same-state call returns immediately; otherwise the state is stored and the
transition is logged (the returned `Bool` records whether the old-to-new
handling, i.e. the log line, ran). -/
def interaction_set_state (i : Interaction) (new_state : InteractionState) :
    Interaction × Bool :=
  if i.state = new_state then (i, false)
  else ({ i with state := new_state }, true)

/-- Embedding of `OjinPersonaService._close_interaction` (video.py lines
1144-1153): `close()` the interaction and drop the reference. The ghost field
`last_closed` keeps the closed object so postconditions can speak about it. -/
def close_interaction (s : ServiceState) : ServiceState :=
  match s.interaction with
  | none => s
  | some i =>
    { s with interaction := none
             last_closed := some (interaction_close i) }

/-- Embedding of `OjinPersonaService._generate_and_send_silence` (video.py
lines 573-592): push one `InteractionInput` whose audio is
`int(duration * 16000)` samples of 16-bit silence and whose `params` are the
five-key dict of `interaction_params`. The source asserts that an interaction
exists; the `none` branch models the call never being reached then. -/
def generate_and_send_silence (s : ServiceState) (duration : Rat)
    (is_last_input : Bool) : ServiceState :=
  match s.interaction with
  | none => s
  | some i =>
    let num_samples := pyint (duration * OJIN_PERSONA_SAMPLE_RATE)
    let silence_audio : List Nat := List.replicate (2 * num_samples.toNat) 0
    { s with sent_messages := s.sent_messages ++
        [{ interaction_id := i.interaction_id
           audio_int16_bytes := silence_audio
           is_last_input := is_last_input
           params := some (interaction_params i) }] }

/-- Embedding of the `_start_interaction(is_speech=False, ...)` call followed
by `set_state(InteractionState.ALL_AUDIO_PROCESSED)` performed on entering
`INITIALIZING` (video.py lines 605-614 and 1029-1071): a fresh interaction
with the idle filter/mouth constants, `start_frame_idx = frame_idx = 0`, the
id handed out by `client.start_interaction()`, both keyframe slots `0`, whose
state ends at `ALL_AUDIO_PROCESSED` (via `STARTING` and `WAITING_READY`). -/
def start_idle_interaction (s : ServiceState) : ServiceState :=
  let i0 := default_interaction s.settings.persona_config_id
  let i1 := { i0 with num_loop_frames := s.settings.idle_sequence_duration * 25 }
  let i2 := (interaction_set_state i1 InteractionState.STARTING).1
  let i3 := { i2 with filter_amount := IDLE_FILTER_AMOUNT
                      mouth_opening_scale := IDLE_MOUTH_OPENING_SCALE
                      start_frame_idx := some 0
                      frame_idx := 0 }
  let i4 := { i3 with interaction_id := some s.next_interaction_id }
  let i5 := (interaction_set_state i4 InteractionState.WAITING_READY).1
  let i6 := { i5 with active_keyframes_slot := IDLE_ANIMATION_KEYFRAMES_SLOT
                      keyframe_slot_to_update := IDLE_ANIMATION_KEYFRAMES_SLOT }
  let i7 := (interaction_set_state i6 InteractionState.ALL_AUDIO_PROCESSED).1
  { s with interaction := some i7 }

/-- Embedding of `OjinPersonaFSM.on_state_changed` (video.py lines 323-363):
per-new-state bookkeeping on the FSM fields, including the seek of the
playback loop to just after the last speech frame when falling back to
`IDLE`/`WAITING_INTERACTION_READY`, and the start of the playback task on the
first `INITIALIZING -> IDLE` transition. -/
def fsm_on_state_changed (s : ServiceState) (old_state new_state : PersonaState) :
    ServiceState :=
  match new_state with
  | PersonaState.INITIALIZING => { s with waiting_for_image_frames := true }
  | PersonaState.IDLE | PersonaState.WAITING_INTERACTION_READY =>
    let s1 := { s with transition_time := -1 }
    let s2 := match s1.prev_speech_frame with
      | some f =>
        { s1 with playback_time := ((f.pts + 1 : Int) : Rat) / 25
                  prev_speech_frame := none }
      | none => s1
    if old_state = PersonaState.INITIALIZING then
      { s2 with events := s2.events ++ [SEvent.startedPlayback] }
    else s2
  | PersonaState.SPEECH => { s with transition_time := -1 }
  | PersonaState.IDLE_TO_SPEECH =>
    { s with waiting_for_image_frames := true
             transition_time := s.playback_time + s.settings.idle_to_speech_seconds }
  | _ => s

/-- The `new_state == INITIALIZING` block of the FSM's state-changed callback
`OjinPersonaService._on_state_changed` (video.py lines 605-615): start the
idle interaction and send the silence that primes the idle cache. -/
def svc_osc_entering_initializing (s : ServiceState) (new_state : PersonaState) :
    ServiceState :=
  if new_state = PersonaState.INITIALIZING then
    generate_and_send_silence (start_idle_interaction s)
      ((s.settings.idle_sequence_duration : Int) : Rat) true
  else s

/-- The `old_state == INITIALIZING and new_state == IDLE` block of
`_on_state_changed` (video.py lines 620-624): push the initialized frames
downstream and upstream. -/
def svc_osc_finished_initializing (s : ServiceState)
    (old_state new_state : PersonaState) : ServiceState :=
  if old_state = PersonaState.INITIALIZING ∧ new_state = PersonaState.IDLE then
    { s with events := s.events ++
        [SEvent.initializedDownstream, SEvent.initializedUpstream] }
  else s

/-- The `new_state == SPEECH` block of `_on_state_changed` (video.py lines
626-627): start the audio-output task if it is not running. -/
def svc_osc_entering_speech (s : ServiceState) (new_state : PersonaState) :
    ServiceState :=
  if new_state = PersonaState.SPEECH ∧ s.audio_output_running = false then
    { s with audio_output_running := true }
  else s

/-- The `new_state == IDLE` block of `_on_state_changed` (video.py lines
629-637): close the interaction, stop the audio-output task and (if
configured) push `BotStoppedSpeakingFrame` upstream. -/
def svc_osc_entering_idle (s : ServiceState) (new_state : PersonaState) :
    ServiceState :=
  if new_state = PersonaState.IDLE then
    let s4 := close_interaction s
    if s4.audio_output_running then
      let s5 := { s4 with audio_output_running := false }
      if s5.settings.push_bot_stopped_speaking_frames then
        { s5 with events := s5.events ++ [SEvent.botStoppedSpeaking] }
      else s5
    else s4
  else s

/-- `OjinPersonaService._on_state_changed` is the sequence of its four `if`
blocks. -/
def svc_on_state_changed (s : ServiceState) (old_state new_state : PersonaState) :
    ServiceState :=
  svc_osc_entering_idle
    (svc_osc_entering_speech
      (svc_osc_finished_initializing
        (svc_osc_entering_initializing s new_state) old_state new_state)
      new_state)
    new_state

/-- Embedding of `OjinPersonaFSM.set_state` (video.py lines 158-166) with its
callback (`OjinPersonaService._on_state_changed`) inlined: a same-state call
returns immediately; a genuine transition stores the new state, logs the
old-to-new pair (ghost field `transition_log`) and runs both state-changed
handlers. -/
def svc_set_state (s : ServiceState) (new_state : PersonaState) : ServiceState :=
  if s.fsm_state = new_state then s
  else
    let old_state := s.fsm_state
    let s1 := { s with fsm_state := new_state
                       transition_log := s.transition_log ++ [(old_state, new_state)] }
    let s2 := fsm_on_state_changed s1 old_state new_state
    svc_on_state_changed s2 old_state new_state

/-- Embedding of `OjinPersonaFSM.interrupt` (video.py lines 224-238): only in
the speaking states `SPEECH` and `IDLE_TO_SPEECH` does it transition to
`IDLE` (running the state-changed handlers) and drain the speech frame
queue. -/
def fsm_interrupt (s : ServiceState) : ServiceState :=
  if s.fsm_state = PersonaState.SPEECH ∨ s.fsm_state = PersonaState.IDLE_TO_SPEECH then
    let s1 := svc_set_state s PersonaState.IDLE
    { s1 with speech_frames := [] }
  else s

/-- Embedding of `OjinPersonaService._interrupt` (video.py lines 1005-1027):
no-op unless an interaction with an id exists; if its state is not
`INACTIVE`, send `CancelInteraction`, run `fsm.interrupt()`, signal
`USER_INTERRUPTED_AI` (whose handler is `fsm.interrupt()` again, video.py
lines 213-214), and finally `_close_interaction()`. -/
def service_interrupt (s : ServiceState) : ServiceState :=
  match s.interaction with
  | none => s
  | some i =>
    match i.interaction_id with
    | none => s
    | some _ =>
      if i.state = InteractionState.INACTIVE then s
      else
        let s1 := { s with events := s.events ++ [SEvent.sentCancel] }
        let s2 := fsm_interrupt s1
        let s3 := fsm_interrupt s2
        close_interaction s3

/-- Embedding of `OjinPersonaService.is_pending_initialization` (video.py
lines 929-939); despite its name it returns `true` exactly when the FSM has
left `INITIALIZING`/`INVALID`. -/
def is_pending_initialization (s : ServiceState) : Bool :=
  match s.fsm_state with
  | PersonaState.INITIALIZING => false
  | PersonaState.INVALID => false
  | _ => true

/-- Embedding of `OjinPersonaService.is_tts_input_allowed` (video.py lines
941-951). -/
def is_tts_input_allowed (s : ServiceState) : Bool :=
  match s.interaction with
  | none => true
  | some i =>
    match i.state with
    | InteractionState.ACTIVE => true
    | InteractionState.WAITING_READY => true
    | _ => false

/-- Embedding of `_start_interaction(is_speech=True)` (video.py lines
1029-1071): reuse `base` (the pending interaction) or create a fresh one, set
the speech filter/mouth constants, signal `START_INTERACTION_MESSAGE_SENT`
(whose handler moves the FSM to `WAITING_INTERACTION_READY`), then store the
id handed out by `client.start_interaction()` and move the interaction to
`WAITING_READY` with the default keyframe slots `(0, -1)`. -/
def start_speech_interaction (s : ServiceState) (base : Option Interaction) :
    ServiceState :=
  let i0 := match base with
    | some b => b
    | none => default_interaction s.settings.persona_config_id
  let i1 := { i0 with num_loop_frames := s.settings.idle_sequence_duration * 25 }
  let i2 := (interaction_set_state i1 InteractionState.STARTING).1
  let i3 := { i2 with filter_amount := SPEECH_FILTER_AMOUNT
                      mouth_opening_scale := SPEECH_MOUTH_OPENING_SCALE
                      pending_first_input := true }
  let s1 := svc_set_state { s with interaction := some i3 }
    PersonaState.WAITING_INTERACTION_READY
  match s1.interaction with
  | some i4 =>
    let i5 := { i4 with interaction_id := some s1.next_interaction_id }
    let i6 := (interaction_set_state i5 InteractionState.WAITING_READY).1
    { s1 with interaction := some { i6 with
        active_keyframes_slot := IDLE_ANIMATION_KEYFRAMES_SLOT
        keyframe_slot_to_update := -1 } }
  | none => s1

/-- Embedding of `OjinPersonaService._handle_input_audio` (video.py lines
1087-1142), taking the already-resampled audio (the resampler is an external
collaborator). Before initialization finishes the audio is queued into a
pending interaction (or dropped when no interaction exists); afterwards,
while TTS input is allowed, it is queued into the current interaction
(started on demand). -/
def handle_input_audio (s : ServiceState) (resampled_audio : List Nat) :
    ServiceState :=
  if is_pending_initialization s = false then
    match s.interaction with
    | none => s
    | some i =>
      match i.interaction_id with
      | none => s
      | some iid =>
        let p0 := match s.pending_interaction with
          | some p => p
          | none => (interaction_set_state
              (default_interaction s.settings.persona_config_id)
              InteractionState.INACTIVE).1
        let msg : InputMsg :=
          { interaction_id := some iid
            audio_int16_bytes := resampled_audio
            is_last_input := false
            params := none }
        { s with pending_interaction := some { p0 with
            audio_input_queue := p0.audio_input_queue ++ [msg]
            pending_first_input := false } }
  else if is_tts_input_allowed s then
    let s1 := match s.interaction with
      | none => start_speech_interaction s none
      | some _ => s
    match s1.interaction with
    | some i =>
      let msg : InputMsg :=
        { interaction_id := i.interaction_id
          audio_int16_bytes := resampled_audio
          is_last_input := false
          params := none }
      { s1 with interaction := some { i with
          audio_input_queue := i.audio_input_queue ++ [msg]
          pending_first_input := false } }
    | none => s1
  else s

/-- Embedding of one pass of the `_process_queued_audio` loop body (video.py
lines 1155-1238) at wall-clock time `now`: skip unless an interaction with an
id is in a sendable state; compute `is_final_message`; pop the next queued
message (or build the 0.01 s silence message when the queue is empty on the
final pass); on the final pass move the interaction to `ALL_AUDIO_PROCESSED`
and mark `is_last_input`; attach the five-key `params` dict; send the message
and enqueue its audio on the interaction's output queue. -/
def process_queued_audio_step (s : ServiceState) (now : Rat) : ServiceState :=
  match s.interaction with
  | none => s
  | some i =>
    match i.interaction_id with
    | none => s
    | some iid =>
      if i.state = InteractionState.WAITING_READY ∨
          i.state = InteractionState.ALL_AUDIO_PROCESSED then s
      else
        let is_final : Bool :=
          if i.received_all_interaction_inputs then
            if i.ending_timestamp + i.ending_extra_time < now then
              decide (i.audio_input_queue.length ≤ 1)
            else false
          else false
        if i.audio_input_queue = [] ∧ is_final = false then s
        else
          let popped : Option InputMsg × List InputMsg :=
            match i.audio_input_queue with
            | m :: rest => (some { m with interaction_id := some iid }, rest)
            | [] => (none, [])
          let msg0 : InputMsg := match popped.1 with
            | some m => m
            | none =>
              { interaction_id := some iid
                audio_int16_bytes :=
                  List.replicate (2 * (pyint ((1 : Rat) / 100 *
                    OJIN_PERSONA_SAMPLE_RATE)).toNat) 0
                is_last_input := false
                params := none }
          let i1 := { i with audio_input_queue := popped.2 }
          let i2 := if is_final then
              (interaction_set_state i1 InteractionState.ALL_AUDIO_PROCESSED).1
            else i1
          let msg1 := if is_final then { msg0 with is_last_input := true } else msg0
          let msg2 := { msg1 with params := some (interaction_params i2) }
          let i3 := { i2 with audio_output_queue :=
              i2.audio_output_queue ++ [msg2.audio_int16_bytes] }
          { s with interaction := some i3
                   sent_messages := s.sent_messages ++ [msg2] }

/-- Embedding of `OjinPersonaFSM.get_transition_frame_idx` (video.py lines
168-169): `ceil(transition_time * 25)`. -/
def get_transition_frame_idx (s : ServiceState) : Int :=
  Rat.ceil (s.transition_time * 25)

/-- Embedding of `PersonaPlaybackLoop.get_current_frame_idx` (video.py lines
1368-1376): `floor(playback_time * fps)` with `fps = 25`. -/
def playback_current_frame_idx (s : ServiceState) : Int :=
  Rat.floor (s.playback_time * 25)

/-- Embedding of `PersonaPlaybackLoop.get_frame_at_time` (video.py lines
1342-1357): mirror the floor frame index over the number of cached idle
frames and index the frame list (`none` models the exceptions Python can
raise here). -/
def get_frame_at_time (s : ServiceState) (t : Rat) : Option AnimationKeyframe :=
  let current_frame_idx := Rat.floor (t * 25)
  match mirror_index current_frame_idx ((s.idle_frames.length : Int)) with
  | none => none
  | some mirror_frame_idx => pylist_get s.idle_frames mirror_frame_idx

/-- The image frame emitted by one playback tick, tagged by provenance: an
idle-cache frame (built at video.py lines 398-406 / 422-429 with
`pts = playback.get_current_frame_idx()`) or a speech frame from the queue
(or the retained previous one). -/
inductive PFrame
  | idleImg (image : List Nat) (pts : Int)
  | speechF (f : SpeechFrame)
deriving DecidableEq, Repr

/-- Embedding of `OjinPersonaFSM.get_next_persona_frame` (video.py lines
365-444): `none` until the playback clock reaches a new 25 fps frame index;
at the transition frame index move to `SPEECH`; in the idle-family states
emit the current idle frame; in `SPEECH` pop the speech queue, and on an
empty queue count a missed frame and re-emit the previous speech frame,
falling back to an idle frame only when no previous speech frame exists. -/
def get_next_persona_frame (s : ServiceState) : ServiceState × Option PFrame :=
  if s.current_frame_idx = playback_current_frame_idx s then (s, none)
  else
    let s1 := { s with current_frame_idx := playback_current_frame_idx s }
    let s2 := if s1.current_frame_idx = get_transition_frame_idx s1 then
        svc_set_state s1 PersonaState.SPEECH
      else s1
    match s2.fsm_state with
    | PersonaState.IDLE | PersonaState.IDLE_TO_SPEECH
    | PersonaState.WAITING_INTERACTION_READY =>
      match get_frame_at_time s2 s2.playback_time with
      | some kf =>
        (s2, some (PFrame.idleImg kf.image (playback_current_frame_idx s2)))
      | none => (s2, none)
    | PersonaState.SPEECH =>
      match s2.speech_frames with
      | [] =>
        let s3 := { s2 with num_frames_missed := s2.num_frames_missed + 1 }
        match s3.prev_speech_frame with
        | some f => (s3, some (PFrame.speechF f))
        | none =>
          match get_frame_at_time s3 s3.playback_time with
          | some kf =>
            (s3, some (PFrame.idleImg kf.image (playback_current_frame_idx s3)))
          | none => (s3, none)
      | f :: rest =>
        ({ s2 with speech_frames := rest
                   prev_speech_frame := some f
                   num_frames_missed := 0 },
         some (PFrame.speechF f))
    | _ => (s2, none)

/-- Embedding of the `ErrorResponseMessage` classification in
`_handle_ojin_message` (video.py lines 896-912): `is_fatal` starts `False`
and is set only for the three fatal codes; `FRAME_SIZE_TOO_BIG` and
`INVALID_INTERACTION_ID` are only logged. -/
def error_code_is_fatal (code : String) : Bool :=
  if code = "NO_BACKEND_SERVER_AVAILABLE" then true
  else if code = "FRAME_SIZE_TOO_BIG" then false
  else if code = "INVALID_INTERACTION_ID" then false
  else if code = "FAILED_CREATE_MODEL" then true
  else if code = "INVALID_PERSONA_ID_CONFIGURATION" then true
  else false

/-- Embedding of the `ErrorResponseMessage` branch of `_handle_ojin_message`
(video.py lines 896-916): on a fatal code push `EndFrame` upstream and
downstream, otherwise leave the state untouched. -/
def handle_error_response (s : ServiceState) (code : String) : ServiceState :=
  if error_code_is_fatal code then
    { s with events := s.events ++ [SEvent.endUpstream, SEvent.endDownstream] }
  else s

/-- Outcome of one `client.connect()` call: success, a transient
`ConnectionError`, or any other exception. -/
inductive ConnectOutcome
  | success
  | connError
  | otherError
deriving DecidableEq, Repr

/-- Observable result of `connect_with_retry`: how many connection attempts
ran, how many inter-attempt sleeps of `client_reconnect_delay` happened, the
returned value (`none` when a non-`ConnectionError` exception propagated out)
and whether the upstream/downstream `EndFrame`s were pushed. -/
structure RetryResult where
  attempts : Nat
  sleeps : Nat
  returned : Option Bool
  end_upstream : Bool
  end_downstream : Bool
deriving DecidableEq, Repr

/-- Embedding of the `for attempt in range(max_retries)` loop of
`OjinPersonaService.connect_with_retry` (video.py lines 659-688), from
attempt number `attempt` on, with `outcomes n` the result of the `n`-th
`client.connect()` call: return `True` on success; on `ConnectionError`
sleep `client_reconnect_delay` unless this was the last attempt, then retry;
any other exception propagates; when the loop ends, push `EndFrame` both
directions and return `False`. -/
def connect_with_retry_from (outcomes : Nat → ConnectOutcome)
    (max_retries attempt sleeps : Nat) : RetryResult :=
  if _h : attempt < max_retries then
    match outcomes attempt with
    | ConnectOutcome.success =>
      { attempts := attempt + 1, sleeps := sleeps, returned := some true
        end_upstream := false, end_downstream := false }
    | ConnectOutcome.otherError =>
      { attempts := attempt + 1, sleeps := sleeps, returned := none
        end_upstream := false, end_downstream := false }
    | ConnectOutcome.connError =>
      if attempt < max_retries - 1 then
        connect_with_retry_from outcomes max_retries (attempt + 1) (sleeps + 1)
      else
        connect_with_retry_from outcomes max_retries (attempt + 1) sleeps
  else
    { attempts := attempt, sleeps := sleeps, returned := some false
      end_upstream := true, end_downstream := true }
termination_by max_retries - attempt
decreasing_by all_goals omega

/-- Embedding of `OjinPersonaService.connect_with_retry` (video.py lines
659-688). -/
def connect_with_retry (outcomes : Nat → ConnectOutcome) (max_retries : Nat) :
    RetryResult :=
  connect_with_retry_from outcomes max_retries 0 0

/-!
## Helper lemmas about the embedded operations
-/

-- Helper: a same-state `set_state` call returns at the top of the function.
theorem svc_set_state_same (s : ServiceState) (n : PersonaState)
    (h : s.fsm_state = n) : svc_set_state s n = s := by
  unfold svc_set_state
  rw [if_pos h]

-- Helper: `_close_interaction` always leaves no current interaction.
theorem close_interaction_interaction (s : ServiceState) :
    (close_interaction s).interaction = none := by
  unfold close_interaction
  cases hi : s.interaction
  · exact hi
  · rfl

-- Helper: `_close_interaction` on an existing interaction records its closed
-- form and drops the reference, leaving all other fields alone.
theorem close_interaction_some (s : ServiceState) (i : Interaction)
    (h : s.interaction = some i) :
    close_interaction s =
      { s with interaction := none, last_closed := some (interaction_close i) } := by
  unfold close_interaction
  rw [h]

-- Helper: `_close_interaction` without an interaction is the identity.
theorem close_interaction_none (s : ServiceState) (h : s.interaction = none) :
    close_interaction s = s := by
  unfold close_interaction
  rw [h]

-- Helper: sending silence changes only `sent_messages`.
theorem gass_fsm_state (s : ServiceState) (d : Rat) (b : Bool) :
    (generate_and_send_silence s d b).fsm_state = s.fsm_state ∧
    (generate_and_send_silence s d b).transition_log = s.transition_log := by
  unfold generate_and_send_silence
  cases hi : s.interaction
  · exact ⟨rfl, rfl⟩
  · exact ⟨rfl, rfl⟩

-- Helper: starting the idle interaction changes only `interaction`.
theorem start_idle_interaction_projs (s : ServiceState) :
    (start_idle_interaction s).fsm_state = s.fsm_state ∧
    (start_idle_interaction s).transition_log = s.transition_log :=
  ⟨rfl, rfl⟩

-- Helper: the FSM's per-state bookkeeping never touches the FSM state field
-- or the transition log.
theorem fsm_on_state_changed_projs (s : ServiceState) (o n : PersonaState) :
    (fsm_on_state_changed s o n).fsm_state = s.fsm_state ∧
    (fsm_on_state_changed s o n).transition_log = s.transition_log := by
  obtain ⟨f1, f2, f3, f4, f5, f6, f7, f8, f9, f10, f11, f12, f13, f14, f15,
    f16, f17, f18⟩ := s
  unfold fsm_on_state_changed
  cases n <;> dsimp only <;> try exact ⟨rfl, rfl⟩
  all_goals cases f3 <;> split_ifs <;> exact ⟨rfl, rfl⟩

-- Helper: `_close_interaction` only touches `interaction` and `last_closed`.
theorem close_interaction_projs (s : ServiceState) :
    (close_interaction s).fsm_state = s.fsm_state ∧
    (close_interaction s).transition_log = s.transition_log ∧
    (close_interaction s).speech_frames = s.speech_frames ∧
    (close_interaction s).audio_output_running = s.audio_output_running ∧
    (close_interaction s).settings = s.settings := by
  unfold close_interaction
  cases hi : s.interaction
  · exact ⟨rfl, rfl, rfl, rfl, rfl⟩
  · exact ⟨rfl, rfl, rfl, rfl, rfl⟩

-- Helper: projections through the four callback stages.
theorem svc_osc_entering_initializing_projs (s : ServiceState) (n : PersonaState) :
    (svc_osc_entering_initializing s n).fsm_state = s.fsm_state ∧
    (svc_osc_entering_initializing s n).transition_log = s.transition_log := by
  unfold svc_osc_entering_initializing
  split_ifs
  · exact ⟨(gass_fsm_state _ _ _).1.trans (start_idle_interaction_projs s).1,
      (gass_fsm_state _ _ _).2.trans (start_idle_interaction_projs s).2⟩
  · exact ⟨rfl, rfl⟩

-- Helper: projections through the initialized-frames stage.
theorem svc_osc_finished_initializing_projs (s : ServiceState)
    (o n : PersonaState) :
    (svc_osc_finished_initializing s o n).fsm_state = s.fsm_state ∧
    (svc_osc_finished_initializing s o n).transition_log = s.transition_log := by
  unfold svc_osc_finished_initializing
  split_ifs <;> exact ⟨rfl, rfl⟩

-- Helper: projections through the entering-SPEECH stage.
theorem svc_osc_entering_speech_projs (s : ServiceState) (n : PersonaState) :
    (svc_osc_entering_speech s n).fsm_state = s.fsm_state ∧
    (svc_osc_entering_speech s n).transition_log = s.transition_log := by
  unfold svc_osc_entering_speech
  split_ifs <;> exact ⟨rfl, rfl⟩

-- Helper: projections through the entering-IDLE stage.
theorem svc_osc_entering_idle_projs (s : ServiceState) (n : PersonaState) :
    (svc_osc_entering_idle s n).fsm_state = s.fsm_state ∧
    (svc_osc_entering_idle s n).transition_log = s.transition_log := by
  unfold svc_osc_entering_idle
  have h := close_interaction_projs s
  split_ifs <;> simp_all <;> split_ifs <;> simp_all

-- Helper: the service's state-changed handler never touches the FSM state
-- field or the transition log.
theorem svc_on_state_changed_projs (s : ServiceState) (o n : PersonaState) :
    (svc_on_state_changed s o n).fsm_state = s.fsm_state ∧
    (svc_on_state_changed s o n).transition_log = s.transition_log := by
  unfold svc_on_state_changed
  refine ⟨?_, ?_⟩
  · rw [(svc_osc_entering_idle_projs _ _).1, (svc_osc_entering_speech_projs _ _).1,
      (svc_osc_finished_initializing_projs _ _ _).1,
      (svc_osc_entering_initializing_projs _ _).1]
  · rw [(svc_osc_entering_idle_projs _ _).2, (svc_osc_entering_speech_projs _ _).2,
      (svc_osc_finished_initializing_projs _ _ _).2,
      (svc_osc_entering_initializing_projs _ _).2]

/-- A concrete service state used to instantiate theorems with hypotheses:
the FSM sits in `IDLE` with empty queues and default settings. -/
def sample_state : ServiceState where
  fsm_state := PersonaState.IDLE
  speech_frames := []
  prev_speech_frame := none
  current_frame_idx := -1
  num_frames_missed := 0
  waiting_for_image_frames := false
  transition_time := -1
  playback_time := 0
  idle_frames := []
  interaction := none
  pending_interaction := none
  settings := default_settings
  audio_output_running := false
  last_closed := none
  transition_log := []
  events := []
  sent_messages := []
  next_interaction_id := "interaction-1"

/-- C9. For both the persona FSM (`OjinPersonaFSM.set_state`, with its
state-changed callback inlined) and the interaction state holder
(`OjinPersonaInteraction.set_state`), setting the state to the state already
held is a no-op: the whole state record is unchanged and no old-to-new
handling runs; a genuine transition stores the new state and logs exactly the
old-to-new pair. -/
theorem c9_set_state_noop :
    (∀ s : ServiceState, svc_set_state s s.fsm_state = s) ∧
    (∀ (s : ServiceState) (n : PersonaState), s.fsm_state ≠ n →
      (svc_set_state s n).fsm_state = n ∧
      (svc_set_state s n).transition_log =
        s.transition_log ++ [(s.fsm_state, n)]) ∧
    (∀ i : Interaction, interaction_set_state i i.state = (i, false)) ∧
    (∀ (i : Interaction) (n : InteractionState), i.state ≠ n →
      interaction_set_state i n = ({ i with state := n }, true)) := by
  refine ⟨fun s => svc_set_state_same s s.fsm_state rfl, fun s n h => ?_, fun i => ?_,
    fun i n h => ?_⟩
  · unfold svc_set_state
    rw [if_neg h]
    constructor
    · rw [(svc_on_state_changed_projs _ _ _).1, (fsm_on_state_changed_projs _ _ _).1]
    · rw [(svc_on_state_changed_projs _ _ _).2, (fsm_on_state_changed_projs _ _ _).2]
  · unfold interaction_set_state
    rw [if_pos rfl]
  · unfold interaction_set_state
    rw [if_neg h]

/-- C9 witness: the no-op at `sample_state` and a genuine `IDLE -> SPEECH`
transition. -/
theorem c9_set_state_noop_witness :
    svc_set_state sample_state sample_state.fsm_state = sample_state ∧
    (svc_set_state sample_state PersonaState.SPEECH).fsm_state =
      PersonaState.SPEECH ∧
    (svc_set_state sample_state PersonaState.SPEECH).transition_log =
      sample_state.transition_log ++
        [(sample_state.fsm_state, PersonaState.SPEECH)] := by
  refine ⟨c9_set_state_noop.1 sample_state, ?_, ?_⟩
  · exact (c9_set_state_noop.2.1 sample_state PersonaState.SPEECH (by decide)).1
  · exact (c9_set_state_noop.2.1 sample_state PersonaState.SPEECH (by decide)).2

/-- C2. On a playback tick in the `SPEECH` state with an empty speech frame
queue, mid-utterance (a previous speech frame of the current utterance
exists), `get_next_persona_frame` never emits an idle frame: it either emits
nothing (the clock index has not advanced) or re-emits the previous speech
frame; the clock does not advance the idle animation into the utterance. -/
theorem c2_no_idle_frame_mid_utterance (s : ServiceState) (f : SpeechFrame)
    (hstate : s.fsm_state = PersonaState.SPEECH)
    (hempty : s.speech_frames = [])
    (hprev : s.prev_speech_frame = some f) :
    (∀ (image : List Nat) (pts : Int),
      (get_next_persona_frame s).2 ≠ some (PFrame.idleImg image pts)) ∧
    ((get_next_persona_frame s).2 = none ∨
      (get_next_persona_frame s).2 = some (PFrame.speechF f)) := by
  obtain ⟨f1, f2, f3, f4, f5, f6, f7, f8, f9, f10, f11, f12, f13, f14, f15,
    f16, f17, f18⟩ := s
  obtain rfl : f1 = PersonaState.SPEECH := hstate
  obtain rfl : f2 = ([] : List SpeechFrame) := hempty
  obtain rfl : f3 = some f := hprev
  unfold get_next_persona_frame
  dsimp only
  split_ifs with htick htrans
  · exact ⟨fun _ _ h => by simp at h, Or.inl rfl⟩
  · rw [svc_set_state_same _ _ rfl]
    exact ⟨fun _ _ h => by simp at h, Or.inr rfl⟩
  · exact ⟨fun _ _ h => by simp at h, Or.inr rfl⟩

/-- A concrete state for the C2 witness: `SPEECH`, empty queue, with a
retained previous speech frame, and a playback clock one tick ahead of the
last emitted frame index. -/
def c2_state : ServiceState :=
  { sample_state with
    fsm_state := PersonaState.SPEECH
    speech_frames := []
    prev_speech_frame := some { pts := 3, image := [7] }
    current_frame_idx := 3
    playback_time := 4 / 25 }

/-- C2 witness: at `c2_state` the emitted frame is the previous speech frame,
never an idle frame. -/
theorem c2_no_idle_frame_mid_utterance_witness :
    (∀ (image : List Nat) (pts : Int),
      (get_next_persona_frame c2_state).2 ≠ some (PFrame.idleImg image pts)) ∧
    ((get_next_persona_frame c2_state).2 = none ∨
      (get_next_persona_frame c2_state).2 =
        some (PFrame.speechF { pts := 3, image := [7] })) :=
  c2_no_idle_frame_mid_utterance c2_state { pts := 3, image := [7] } rfl rfl rfl

-- Helper: a genuine transition ends in the requested state.
theorem svc_set_state_fsm_state (s : ServiceState) (n : PersonaState)
    (h : s.fsm_state ≠ n) : (svc_set_state s n).fsm_state = n := by
  unfold svc_set_state
  rw [if_neg h, (svc_on_state_changed_projs _ _ _).1,
    (fsm_on_state_changed_projs _ _ _).1]

-- Helper: full effect of a genuine transition to IDLE (from a state other
-- than INITIALIZING) on the fields the interrupt claims speak about.
theorem svc_set_state_idle_spec (s : ServiceState)
    (h : s.fsm_state ≠ PersonaState.IDLE)
    (h2 : s.fsm_state ≠ PersonaState.INITIALIZING) :
    (svc_set_state s PersonaState.IDLE).fsm_state = PersonaState.IDLE ∧
    (svc_set_state s PersonaState.IDLE).interaction = none ∧
    (svc_set_state s PersonaState.IDLE).last_closed =
      (match s.interaction with
       | some i => some (interaction_close i)
       | none => s.last_closed) ∧
    (svc_set_state s PersonaState.IDLE).speech_frames = s.speech_frames := by
  obtain ⟨f1, f2, f3, f4, f5, f6, f7, f8, f9, f10, f11, f12, f13, f14, f15,
    f16, f17, f18⟩ := s
  cases f1
  all_goals try exact absurd rfl h
  all_goals try exact absurd rfl h2
  all_goals (
    cases f3 <;> cases f10 <;>
      simp [svc_set_state, fsm_on_state_changed, svc_on_state_changed,
        svc_osc_entering_initializing, svc_osc_finished_initializing,
        svc_osc_entering_speech, svc_osc_entering_idle, close_interaction,
        interaction_close] <;>
      split_ifs <;> simp_all)

-- Helper: `fsm.interrupt()` outside the speaking states does nothing.
theorem fsm_interrupt_not_speaking (s : ServiceState)
    (h : ¬(s.fsm_state = PersonaState.SPEECH ∨
      s.fsm_state = PersonaState.IDLE_TO_SPEECH)) : fsm_interrupt s = s := by
  unfold fsm_interrupt
  rw [if_neg h]

-- Helper: `fsm.interrupt()` in a speaking state reaches IDLE having drained
-- the speech queue and closed the interaction via the IDLE callback.
theorem fsm_interrupt_speaking (s : ServiceState)
    (h : s.fsm_state = PersonaState.SPEECH ∨
      s.fsm_state = PersonaState.IDLE_TO_SPEECH) :
    (fsm_interrupt s).fsm_state = PersonaState.IDLE ∧
    (fsm_interrupt s).interaction = none ∧
    (fsm_interrupt s).last_closed =
      (match s.interaction with
       | some i => some (interaction_close i)
       | none => s.last_closed) ∧
    (fsm_interrupt s).speech_frames = [] := by
  have h1 : s.fsm_state ≠ PersonaState.IDLE := by
    rcases h with h | h <;> rw [h] <;> decide
  have h2 : s.fsm_state ≠ PersonaState.INITIALIZING := by
    rcases h with h | h <;> rw [h] <;> decide
  unfold fsm_interrupt
  rw [if_pos h]
  have hs := svc_set_state_idle_spec s h1 h2
  exact ⟨hs.1, hs.2.1, hs.2.2.1, rfl⟩

/-- C3, amended. After `_interrupt` completes on an accepted interrupt (an
interaction with an id exists and is not `INACTIVE`), the interaction is
closed with both of its audio queues drained and the reference dropped, in
every state from which the interrupt is accepted; the speech frame queue,
however, is only guaranteed empty when the FSM was in one of the speaking
states `SPEECH` / `IDLE_TO_SPEECH` (in the other states `fsm.interrupt()`
returns without draining it). -/
theorem c3_amended_interrupt_clears_buffers (s : ServiceState) (i : Interaction)
    (hint : s.interaction = some i)
    (hid : i.interaction_id ≠ none)
    (hact : i.state ≠ InteractionState.INACTIVE) :
    (service_interrupt s).interaction = none ∧
    (service_interrupt s).last_closed = some (interaction_close i) ∧
    (interaction_close i).audio_input_queue = [] ∧
    (interaction_close i).audio_output_queue = [] ∧
    ((s.fsm_state = PersonaState.SPEECH ∨
        s.fsm_state = PersonaState.IDLE_TO_SPEECH) →
      (service_interrupt s).speech_frames = []) := by
  obtain ⟨iid, hiid⟩ : ∃ iid, i.interaction_id = some iid := by
    cases hii : i.interaction_id
    · exact absurd hii hid
    · exact ⟨_, rfl⟩
  obtain ⟨f1, f2, f3, f4, f5, f6, f7, f8, f9, f10, f11, f12, f13, f14, f15,
    f16, f17, f18⟩ := s
  obtain rfl : f10 = some i := hint
  unfold service_interrupt
  dsimp only
  rw [hiid]
  dsimp only
  rw [if_neg hact]
  by_cases hsp : f1 = PersonaState.SPEECH ∨ f1 = PersonaState.IDLE_TO_SPEECH
  · have hA := fsm_interrupt_speaking
      { fsm_state := f1, speech_frames := f2, prev_speech_frame := f3,
        current_frame_idx := f4, num_frames_missed := f5,
        waiting_for_image_frames := f6, transition_time := f7,
        playback_time := f8, idle_frames := f9, interaction := some i,
        pending_interaction := f11, settings := f12,
        audio_output_running := f13, last_closed := f14, transition_log := f15,
        events := f16 ++ [SEvent.sentCancel], sent_messages := f17,
        next_interaction_id := f18 } hsp
    have hB := fsm_interrupt_not_speaking _ (by rw [hA.1]; decide)
    rw [hB, close_interaction_none _ hA.2.1]
    exact ⟨hA.2.1, hA.2.2.1, rfl, rfl, fun _ => hA.2.2.2⟩
  · have hB := fsm_interrupt_not_speaking
      { fsm_state := f1, speech_frames := f2, prev_speech_frame := f3,
        current_frame_idx := f4, num_frames_missed := f5,
        waiting_for_image_frames := f6, transition_time := f7,
        playback_time := f8, idle_frames := f9, interaction := some i,
        pending_interaction := f11, settings := f12,
        audio_output_running := f13, last_closed := f14, transition_log := f15,
        events := f16 ++ [SEvent.sentCancel], sent_messages := f17,
        next_interaction_id := f18 } hsp
    rw [hB, hB, close_interaction_some _ i rfl]
    exact ⟨rfl, rfl, rfl, rfl, fun hc => absurd hc hsp⟩

/-- The interaction of the C3 counterexample state: active, with an id. -/
def c3_interaction : Interaction :=
  { default_interaction "persona-1" with
    interaction_id := some "interaction-7"
    state := InteractionState.ACTIVE }

/-- The C3 counterexample state: the FSM sits in
`WAITING_INTERACTION_READY` (a state in which the interrupt is accepted,
since acceptance only looks at the interaction) while a stale frame sits in
the speech frame queue. -/
def c3_state : ServiceState :=
  { sample_state with
    fsm_state := PersonaState.WAITING_INTERACTION_READY
    speech_frames := [{ pts := 0, image := [1] }]
    interaction := some c3_interaction }

/-- C3, counterexample. From `c3_state` the interrupt is accepted (an
interaction with an id exists and is `ACTIVE`), yet after `_interrupt`
completes the speech frame queue still holds its frame: `fsm.interrupt()`
drains it only in the speaking states, and `WAITING_INTERACTION_READY` is not
one of them. -/
theorem c3_counterexample :
    c3_state.interaction = some c3_interaction ∧
    c3_interaction.interaction_id = some "interaction-7" ∧
    c3_interaction.state = InteractionState.ACTIVE ∧
    (service_interrupt c3_state).speech_frames = [{ pts := 0, image := [1] }] := by
  refine ⟨rfl, rfl, rfl, ?_⟩
  decide

/-- C3 witness: the amended postcondition evaluated at `c3_state`. -/
theorem c3_amended_interrupt_clears_buffers_witness :
    (service_interrupt c3_state).interaction = none ∧
    (service_interrupt c3_state).last_closed =
      some (interaction_close c3_interaction) ∧
    (interaction_close c3_interaction).audio_input_queue = [] ∧
    (interaction_close c3_interaction).audio_output_queue = [] ∧
    ((c3_state.fsm_state = PersonaState.SPEECH ∨
        c3_state.fsm_state = PersonaState.IDLE_TO_SPEECH) →
      (service_interrupt c3_state).speech_frames = []) :=
  c3_amended_interrupt_clears_buffers c3_state c3_interaction rfl
    (by decide) (by decide)

/-- C7, amended. A TTS audio frame arriving while the session is still
`INITIALIZING` is not dropped when the idle interaction exists (as it does
throughout initialization): the resampled audio is wrapped in an
`InteractionInput` message and queued into a pending interaction's audio
input queue, to be sent to the server once initialization completes; nothing
is sent immediately and the current interaction is untouched. The audio is
dropped only when no interaction (or no interaction id) is set. -/
theorem c7_amended_audio_queued_while_initializing (s : ServiceState)
    (audio : List Nat) (i : Interaction) (iid : String)
    (hfsm : s.fsm_state = PersonaState.INITIALIZING)
    (hint : s.interaction = some i)
    (hid : i.interaction_id = some iid) :
    (∃ p, (handle_input_audio s audio).pending_interaction = some p ∧
      ∃ pre, p.audio_input_queue = pre ++
        [{ interaction_id := some iid, audio_int16_bytes := audio,
           is_last_input := false, params := none }]) ∧
    (handle_input_audio s audio).sent_messages = s.sent_messages ∧
    (handle_input_audio s audio).interaction = s.interaction ∧
    (∀ (t : ServiceState) (a : List Nat),
      t.fsm_state = PersonaState.INITIALIZING → t.interaction = none →
      handle_input_audio t a = t) := by
  obtain ⟨f1, f2, f3, f4, f5, f6, f7, f8, f9, f10, f11, f12, f13, f14, f15,
    f16, f17, f18⟩ := s
  obtain rfl : f1 = PersonaState.INITIALIZING := hfsm
  obtain rfl : f10 = some i := hint
  refine ⟨?_, ?_, ?_, ?_⟩
  · unfold handle_input_audio
    dsimp only [is_pending_initialization]
    rw [hid]
    dsimp only
    cases f11 with
    | none =>
      exact ⟨_, rfl, [], rfl⟩
    | some p =>
      exact ⟨_, rfl, p.audio_input_queue, rfl⟩
  · unfold handle_input_audio
    dsimp only [is_pending_initialization]
    rw [hid]
    dsimp only
    cases f11 <;> rfl
  · unfold handle_input_audio
    dsimp only [is_pending_initialization]
    rw [hid]
    dsimp only
    cases f11 <;> rfl
  · intro t a hfsm2 hint2
    obtain ⟨g1, g2, g3, g4, g5, g6, g7, g8, g9, g10, g11, g12, g13, g14, g15,
      g16, g17, g18⟩ := t
    obtain rfl : g1 = PersonaState.INITIALIZING := hfsm2
    obtain rfl : g10 = (none : Option Interaction) := hint2
    rfl

/-- The C7 counterexample state: the session is still `INITIALIZING` with the
idle interaction in place. -/
def c7_state : ServiceState :=
  { sample_state with
    fsm_state := PersonaState.INITIALIZING
    interaction := some { default_interaction "persona-1" with
      interaction_id := some "interaction-9" } }

/-- C7, counterexample. A TTS audio frame arriving at `c7_state` (still
`INITIALIZING`) is not dropped: a message carrying exactly that audio is
queued into the pending interaction's audio input queue, contradicting the
claim that no message carrying the audio is queued for the server. -/
theorem c7_counterexample :
    c7_state.fsm_state = PersonaState.INITIALIZING ∧
    (handle_input_audio c7_state [3, 4]).pending_interaction.map
        Interaction.audio_input_queue =
      some [{ interaction_id := some "interaction-9",
              audio_int16_bytes := [3, 4],
              is_last_input := false, params := none }] := by
  refine ⟨rfl, ?_⟩
  decide

/-- C7 witness: the amended behaviour evaluated at `c7_state`. -/
theorem c7_amended_audio_queued_while_initializing_witness :
    (∃ p, (handle_input_audio c7_state [3, 4]).pending_interaction = some p ∧
      ∃ pre, p.audio_input_queue = pre ++
        [{ interaction_id := some "interaction-9", audio_int16_bytes := [3, 4],
           is_last_input := false, params := none }]) ∧
    (handle_input_audio c7_state [3, 4]).sent_messages =
      c7_state.sent_messages ∧
    (handle_input_audio c7_state [3, 4]).interaction = c7_state.interaction ∧
    (∀ (t : ServiceState) (a : List Nat),
      t.fsm_state = PersonaState.INITIALIZING → t.interaction = none →
      handle_input_audio t a = t) :=
  c7_amended_audio_queued_while_initializing c7_state [3, 4]
    { default_interaction "persona-1" with interaction_id := some "interaction-9" }
    "interaction-9" rfl rfl rfl

-- Helper: one pass of the audio sender either sends nothing or appends
-- exactly one message whose `params` are the five-key dict of some
-- interaction.
theorem process_step_sends (s : ServiceState) (now : Rat) :
    (process_queued_audio_step s now).sent_messages = s.sent_messages ∨
    ∃ (i : Interaction) (m : InputMsg),
      (process_queued_audio_step s now).sent_messages =
        s.sent_messages ++ [m] ∧
      m.params = some (interaction_params i) := by
  unfold process_queued_audio_step
  cases hix : s.interaction with
  | none => exact Or.inl rfl
  | some i =>
    dsimp only
    cases hid : i.interaction_id with
    | none => exact Or.inl rfl
    | some iid =>
      dsimp only
      split_ifs <;>
        first
        | exact Or.inl rfl
        | exact Or.inr ⟨_, _, rfl, rfl⟩

/-- C4, amended. There is no `client_frame_index` parameter and no
`extra_frames_lat` setting in the source: every outbound audio
`InteractionInput` message (both the queued-audio sender and the
initialization silence) carries the five-key `params` dict of
`interaction_params`, whose frame-index entry is `start_frame_idx`, equal to
the sending interaction's `start_frame_idx` field; `client_frame_index` never
appears among the keys. -/
theorem c4_amended_outbound_params :
    (∀ (s : ServiceState) (now : Rat) (m : InputMsg),
      (process_queued_audio_step s now).sent_messages =
        s.sent_messages ++ [m] →
      ∃ i, m.params = some (interaction_params i)) ∧
    (∀ (s : ServiceState) (d : Rat) (b : Bool) (m : InputMsg),
      (generate_and_send_silence s d b).sent_messages =
        s.sent_messages ++ [m] →
      ∃ i, s.interaction = some i ∧ m.params = some (interaction_params i)) ∧
    (∀ i : Interaction,
      (interaction_params i).lookup "client_frame_index" = none ∧
      (interaction_params i).lookup "start_frame_idx" =
        some (PValue.pOptInt i.start_frame_idx) ∧
      (interaction_params i).map Prod.fst =
        ["start_frame_idx", "filter_amount", "mouth_opening_scale",
         "active_keyframe_slot_index", "to_update_keyframe_slot_index"]) := by
  refine ⟨?_, ?_, ?_⟩
  · intro s now m hm
    rcases process_step_sends s now with h | ⟨i, m', he, hp⟩
    · rw [h] at hm
      have := congrArg List.length hm
      simp at this
    · have hmm : m' = m := by
        have h2 := (List.append_right_inj s.sent_messages).1 (he.symm.trans hm)
        simpa using h2
      exact ⟨i, hmm ▸ hp⟩
  · intro s d b m hm
    unfold generate_and_send_silence at hm
    cases hi : s.interaction with
    | none =>
      rw [hi] at hm
      have := congrArg List.length hm
      simp at this
    | some i =>
      rw [hi] at hm
      have hmm := (List.append_right_inj s.sent_messages).1 hm
      simp only [List.cons.injEq, and_true] at hmm
      exact ⟨i, rfl, hmm ▸ rfl⟩
  · intro i
    exact ⟨rfl, rfl, rfl⟩

/-- The interaction of the C4 counterexample/witness state: `ACTIVE`, with
one queued audio message and `start_frame_idx = 7`. -/
def c4_interaction : Interaction :=
  { default_interaction "persona-1" with
    interaction_id := some "interaction-4"
    state := InteractionState.ACTIVE
    start_frame_idx := some 7
    audio_input_queue := [{ interaction_id := none, audio_int16_bytes := [9],
                            is_last_input := false, params := none }] }

/-- The C4 state: ready to send one queued audio message. -/
def c4_state : ServiceState :=
  { sample_state with interaction := some c4_interaction }

/-- C4, counterexample. The one message the audio sender emits from
`c4_state` carries a `params` dict with no `client_frame_index` key at all
(so its value cannot equal `played_frame_idx + extra_frames_lat`); the
frame-index key it does carry is `start_frame_idx`. -/
theorem c4_counterexample :
    (process_queued_audio_step c4_state 0).sent_messages.map
        (fun m => m.params.map (fun ps => ps.lookup "client_frame_index")) =
      [some none] ∧
    (process_queued_audio_step c4_state 0).sent_messages.map
        (fun m => m.params.map (fun ps => ps.lookup "start_frame_idx")) =
      [some (some (PValue.pOptInt (some 7)))] := by
  refine ⟨?_, ?_⟩ <;> decide

/-- The message actually sent from `c4_state`. -/
def c4_sent_msg : InputMsg :=
  { interaction_id := some "interaction-4"
    audio_int16_bytes := [9]
    is_last_input := false
    params := some (interaction_params
      { c4_interaction with audio_input_queue := [] }) }

/-- C4 witness: the amended statement applied to the concrete send from
`c4_state`. -/
theorem c4_amended_outbound_params_witness :
    ∃ i, c4_sent_msg.params = some (interaction_params i) :=
  c4_amended_outbound_params.1 c4_state 0 c4_sent_msg (by decide)

/-- C6. On an `ErrorResponse`, `EndFrame`s are pushed upstream and downstream
if and only if the code is one of `NO_BACKEND_SERVER_AVAILABLE`,
`FAILED_CREATE_MODEL`, `INVALID_PERSONA_ID_CONFIGURATION`;
`FRAME_SIZE_TOO_BIG` and `INVALID_INTERACTION_ID` leave the state untouched
(logged and survivable). -/
theorem c6_error_response_classification (s : ServiceState) (code : String) :
    ((handle_error_response s code).events =
        s.events ++ [SEvent.endUpstream, SEvent.endDownstream] ↔
      (code = "NO_BACKEND_SERVER_AVAILABLE" ∨ code = "FAILED_CREATE_MODEL" ∨
        code = "INVALID_PERSONA_ID_CONFIGURATION")) ∧
    handle_error_response s "FRAME_SIZE_TOO_BIG" = s ∧
    handle_error_response s "INVALID_INTERACTION_ID" = s := by
  have hlen : ¬ (s.events = s.events ++ [SEvent.endUpstream, SEvent.endDownstream]) := by
    intro h
    have := congrArg List.length h
    simp at this
  refine ⟨?_, rfl, rfl⟩
  by_cases h1 : code = "NO_BACKEND_SERVER_AVAILABLE"
  · subst h1
    exact iff_of_true rfl (Or.inl rfl)
  by_cases h4 : code = "FAILED_CREATE_MODEL"
  · subst h4
    exact iff_of_true rfl (Or.inr (Or.inl rfl))
  by_cases h5 : code = "INVALID_PERSONA_ID_CONFIGURATION"
  · subst h5
    exact iff_of_true rfl (Or.inr (Or.inr rfl))
  have hf : error_code_is_fatal code = false := by
    unfold error_code_is_fatal
    rw [if_neg h1]
    by_cases ha : code = "FRAME_SIZE_TOO_BIG"
    · rw [if_pos ha]
    · rw [if_neg ha]
      by_cases hb : code = "INVALID_INTERACTION_ID"
      · rw [if_pos hb]
      · rw [if_neg hb, if_neg h4, if_neg h5]
  refine iff_of_false ?_ ?_
  · unfold handle_error_response
    rw [hf]
    simpa using hlen
  · rintro (h | h | h)
    · exact absurd h h1
    · exact absurd h h4
    · exact absurd h h5

-- Helper: the attempt counter never exceeds the configured maximum.
theorem cwrf_attempts_le (o : Nat → ConnectOutcome) (M : Nat) :
    ∀ (k a sl : Nat), M - a ≤ k → a ≤ M →
      (connect_with_retry_from o M a sl).attempts ≤ M := by
  intro k
  induction k with
  | zero =>
    intro a sl hk ha
    have hnlt : ¬ a < M := by omega
    rw [connect_with_retry_from.eq_def, dif_neg hnlt]
    exact ha
  | succ k ih =>
    intro a sl hk ha
    rw [connect_with_retry_from.eq_def]
    by_cases hlt : a < M
    · rw [dif_pos hlt]
      cases ho : o a
      · dsimp only
        omega
      · dsimp only
        split_ifs
        · exact ih (a + 1) (sl + 1) (by omega) (by omega)
        · exact ih (a + 1) sl (by omega) (by omega)
      · dsimp only
        omega
    · rw [dif_neg hlt]
      exact ha

-- Helper: one retry step after a ConnectionError: the attempt counter moves
-- on and the sleep happens unless this was the last attempt.
theorem cwrf_step (o : Nat → ConnectOutcome) (M a sl : Nat) (h2 : a < M)
    (h1 : o a = ConnectOutcome.connError) :
    connect_with_retry_from o M a sl =
      connect_with_retry_from o M (a + 1)
        (if a < M - 1 then sl + 1 else sl) := by
  conv_lhs => rw [connect_with_retry_from.eq_def]
  rw [dif_pos h2, h1]
  dsimp only
  split_ifs <;> rfl

-- Helper: k leading ConnectionErrors advance the attempt counter by k and
-- sleep once per consumed retry.
theorem cwrf_skip (o : Nat → ConnectOutcome) (M : Nat) :
    ∀ (k a sl : Nat),
      (∀ j, a ≤ j → j < a + k → o j = ConnectOutcome.connError) →
      a + k < M →
      connect_with_retry_from o M a sl =
        connect_with_retry_from o M (a + k) (sl + k) := by
  intro k
  induction k with
  | zero => intro a sl _ _; rfl
  | succ k ih =>
    intro a sl hconn hlt
    have h2 : a < M := by omega
    have h1 := hconn a le_rfl (by omega)
    rw [cwrf_step o M a sl h2 h1, if_pos (show a < M - 1 by omega)]
    rw [ih (a + 1) (sl + 1) (fun j hj hjk => hconn j (by omega) (by omega))
      (by omega)]
    rw [show a + 1 + k = a + (k + 1) from by omega,
      show sl + 1 + k = sl + (k + 1) from by omega]

-- Helper: the first successful attempt returns True with one sleep per
-- preceding failed attempt and no End frames.
theorem cwrf_first_success (o : Nat → ConnectOutcome) (M k : Nat) (hk : k < M)
    (hconn : ∀ j, j < k → o j = ConnectOutcome.connError)
    (hs : o k = ConnectOutcome.success) :
    connect_with_retry o M =
      { attempts := k + 1, sleeps := k, returned := some true,
        end_upstream := false, end_downstream := false } := by
  unfold connect_with_retry
  rw [cwrf_skip o M k 0 0 (fun j hj hjk => hconn j (by omega)) (by omega)]
  rw [show (0 : Nat) + k = k from by omega]
  rw [connect_with_retry_from.eq_def, dif_pos hk, hs]

-- Helper: a non-ConnectionError exception at the first non-failing attempt
-- propagates: nothing is returned and no End frames are pushed.
theorem cwrf_first_other (o : Nat → ConnectOutcome) (M k : Nat) (hk : k < M)
    (hconn : ∀ j, j < k → o j = ConnectOutcome.connError)
    (hs : o k = ConnectOutcome.otherError) :
    connect_with_retry o M =
      { attempts := k + 1, sleeps := k, returned := none,
        end_upstream := false, end_downstream := false } := by
  unfold connect_with_retry
  rw [cwrf_skip o M k 0 0 (fun j hj hjk => hconn j (by omega)) (by omega)]
  rw [show (0 : Nat) + k = k from by omega]
  rw [connect_with_retry_from.eq_def, dif_pos hk, hs]

-- Helper: when every attempt raises ConnectionError the loop ends having
-- made all attempts with one sleep between consecutive attempts (none after
-- the last), pushes End frames both directions and returns False.
theorem cwrf_all_fail (o : Nat → ConnectOutcome) (M : Nat)
    (h : ∀ j, j < M → o j = ConnectOutcome.connError) :
    connect_with_retry o M =
      { attempts := M, sleeps := M - 1, returned := some false,
        end_upstream := true, end_downstream := true } := by
  cases M with
  | zero =>
    unfold connect_with_retry
    rw [connect_with_retry_from.eq_def, dif_neg (by omega)]
  | succ n =>
    unfold connect_with_retry
    rw [cwrf_skip o (n + 1) n 0 0 (fun j hj hjk => h j (by omega)) (by omega)]
    rw [show (0 : Nat) + n = n from by omega]
    rw [cwrf_step o (n + 1) n n (by omega) (h n (by omega)),
      if_neg (by omega)]
    rw [connect_with_retry_from.eq_def, dif_neg (by omega)]
    rfl

/-- C5. `connect_with_retry` makes at most `client_connect_max_retries`
attempts; with `k` leading `ConnectionError`s, a success at attempt `k`
returns `True` after exactly `k` inter-attempt sleeps and no End frames; any
other exception at attempt `k` short-circuits the loop (nothing returned, no
End frames); and when every attempt raises `ConnectionError` the loop makes
all `M` attempts with `M - 1` sleeps (none after the last), pushes `EndFrame`
upstream and downstream and returns `False`. -/
theorem c5_connect_with_retry_spec (o : Nat → ConnectOutcome) (M : Nat) :
    (connect_with_retry o M).attempts ≤ M ∧
    (∀ k, k < M → (∀ j, j < k → o j = ConnectOutcome.connError) →
      o k = ConnectOutcome.success →
      connect_with_retry o M =
        { attempts := k + 1, sleeps := k, returned := some true,
          end_upstream := false, end_downstream := false }) ∧
    (∀ k, k < M → (∀ j, j < k → o j = ConnectOutcome.connError) →
      o k = ConnectOutcome.otherError →
      connect_with_retry o M =
        { attempts := k + 1, sleeps := k, returned := none,
          end_upstream := false, end_downstream := false }) ∧
    ((∀ j, j < M → o j = ConnectOutcome.connError) →
      connect_with_retry o M =
        { attempts := M, sleeps := M - 1, returned := some false,
          end_upstream := true, end_downstream := true }) := by
  refine ⟨?_, ?_, ?_, ?_⟩
  · exact cwrf_attempts_le o M M 0 0 (by omega) (by omega)
  · exact fun k hk hconn hs => cwrf_first_success o M k hk hconn hs
  · exact fun k hk hconn hs => cwrf_first_other o M k hk hconn hs
  · exact fun h => cwrf_all_fail o M h

/-- C5 witness: with the default of 3 retries and every attempt raising
`ConnectionError`, the loop makes 3 attempts, sleeps twice, pushes the End
frames and returns `False`; the attempt counter respects the bound. -/
theorem c5_connect_with_retry_spec_witness :
    connect_with_retry (fun _ => ConnectOutcome.connError) 3 =
      { attempts := 3, sleeps := 2, returned := some false,
        end_upstream := true, end_downstream := true } ∧
    (connect_with_retry (fun _ => ConnectOutcome.connError) 3).attempts ≤ 3 := by
  have h := c5_connect_with_retry_spec (fun _ => ConnectOutcome.connError) 3
  exact ⟨h.2.2.2 (fun j _ => rfl), h.1⟩
